import Mathlib

/-!
Verification development for the ecommerce-dashboard-proxy repository
(`src/app.py` and `src/proxy_server.py`).

The Python sources are shallowly embedded below.  External library calls
(the Snowflake driver's `connect`, statement execution and chunked fetch,
and the `cryptography` PEM parser) are modelled as oracles supplied as
parameters; everything the repository's own code does — control flow,
configuration checks, base64 decoding, JSON encoding, the stream
generator's try/except/finally, the HTTP handler's input validation —
is translated faithfully into executable Lean definitions.
-/

set_option maxRecDepth 4000

/-! ## Small Python-semantics utilities -/

/-- Python truthiness of `os.environ.get`/`os.getenv` results: `None` and
the empty string are falsy, as tested by `not all([...])` in both sources. -/
def truthy : Option String → Bool
  | none => false
  | some s => !s.isEmpty

/-- Python `str.strip()` on the character list of a string (ASCII-faithful:
strips leading and trailing whitespace). -/
def pyStripChars (l : List Char) : List Char :=
  ((l.dropWhile Char.isWhitespace).reverse.dropWhile Char.isWhitespace).reverse

/-- UTF-8 encoding of one character, byte values as `Nat` (models Python
`str.encode("utf-8")` per code point). -/
def encodeUtf8Char (c : Char) : List Nat :=
  let n := c.toNat
  if n < 128 then [n]
  else if n < 2048 then [192 + n / 64, 128 + n % 64]
  else if n < 65536 then [224 + n / 4096, 128 + n / 64 % 64, 128 + n % 64]
  else [240 + n / 262144, 128 + n / 4096 % 64, 128 + n / 64 % 64, 128 + n % 64]

/-- Python `s.encode("utf-8")` as a list of byte values. -/
def strBytes (s : String) : List Nat :=
  s.toList.flatMap encodeUtf8Char

/-! ## base64.b64decode model

`base64.b64decode` with the default `validate=False` discards characters
outside the base64 alphabet, then requires the remaining data plus `=`
padding to have length divisible by 4 (and a data remainder of 1 character
is invalid padding); it raises `binascii.Error` otherwise.  `none` below
models the raised error. -/

/-- Value of one base64 alphabet character. -/
def b64CharVal (c : Char) : Option Nat :=
  if 'A' ≤ c ∧ c ≤ 'Z' then some (c.toNat - 65)
  else if 'a' ≤ c ∧ c ≤ 'z' then some (c.toNat - 97 + 26)
  else if '0' ≤ c ∧ c ≤ '9' then some (c.toNat - 48 + 52)
  else if c = '+' then some 62
  else if c = '/' then some 63
  else none

/-- Decode a list of 6-bit values into bytes (complete quads give 3 bytes,
a trailing pair gives 1 byte, a trailing triple gives 2 bytes). -/
def decodeB64Vals : List Nat → List Nat
  | a :: b :: c :: d :: rest =>
      (a * 4 + b / 16) :: ((b % 16) * 16 + c / 4) :: ((c % 4) * 64 + d) :: decodeB64Vals rest
  | [a, b] => [a * 4 + b / 16]
  | [a, b, c] => [a * 4 + b / 16, (b % 16) * 16 + c / 4]
  | _ => []

/-- Model of `base64.b64decode(s)` (non-validating mode); `none` models the raised
`binascii.Error` on bad padding. -/
def pyB64Decode (s : String) : Option (List Nat) :=
  let kept := s.toList.filter (fun c => (b64CharVal c).isSome || c = '=')
  let data := kept.takeWhile (fun c => c ≠ '=')
  let pad := kept.length - data.length
  if (data.length + pad) % 4 ≠ 0 then none
  else if data.length % 4 = 1 then none
  else some (decodeB64Vals (data.filterMap b64CharVal))

/-- Bytes of the ASCII text `-----BEGIN`. -/
def pemMarker : List Nat := strBytes "-----BEGIN"

/-- Containment test on byte lists (prefix-at-any-position), modelling
Python's `b"-----BEGIN" in raw`. -/
def bytesContain (needle : List Nat) : List Nat → Bool
  | [] => needle.isEmpty
  | x :: xs => needle.isPrefixOf (x :: xs) || bytesContain needle xs

/-- Does a byte blob look like PEM, i.e. contain `-----BEGIN`? -/
def looksLikePEM (raw : List Nat) : Bool :=
  bytesContain pemMarker raw

/-! ## JSON value model and `json.dumps`

Cell values reaching `json.dumps` in `stream_data` (via
`df_chunk.to_dict('records')`).  A finite Python float is carried by its
`repr` text (the shortest round-trip decimal `json.dumps` emits for it);
no claim depends on binary float arithmetic, only on the finite /
non-finite distinction. -/

inductive PyFloat where
  | finite (text : String)
  | nan
  | inf
  | ninf
deriving DecidableEq

inductive CellValue where
  | pynull
  | pybool (b : Bool)
  | pyint (n : Int)
  | pyfloat (f : PyFloat)
  | pystr (s : String)
  | pydatetime (iso : String)
  | pyother (className : String)
deriving DecidableEq

/-- Python class name of a cell value, used in the `TypeError` text. -/
def CellValue.className : CellValue → String
  | .pynull => "NoneType"
  | .pybool _ => "bool"
  | .pyint _ => "int"
  | .pyfloat _ => "float"
  | .pystr _ => "str"
  | .pydatetime _ => "datetime"
  | .pyother cls => cls

/-- The `json_converter` function from `src/app.py`: datetime/date/Timestamp objects are
replaced by their `isoformat()` string; anything else raises `TypeError`. -/
def json_converter : CellValue → Except String CellValue
  | .pydatetime iso => .ok (.pystr iso)
  | v => .error ("Object of type " ++ v.className ++ " is not JSON serializable")

/-- One hex digit (lowercase), as emitted by `json.dumps` escapes. -/
def hexDigit (n : Nat) : Char :=
  if n < 10 then Char.ofNat (48 + n) else Char.ofNat (87 + n)

/-- Four lowercase hex digits. -/
def hex4 (n : Nat) : String :=
  String.mk [hexDigit (n / 4096 % 16), hexDigit (n / 256 % 16), hexDigit (n / 16 % 16), hexDigit (n % 16)]

/-- Escape one character as `json.dumps` does with the default
`ensure_ascii=True` (characters outside `0x20..0x7e` become `\uXXXX`,
with surrogate pairs above the BMP). -/
def escChar (c : Char) : String :=
  if c = '"' then "\\\""
  else if c = '\\' then "\\\\"
  else if c = '\n' then "\\n"
  else if c = '\r' then "\\r"
  else if c = '\t' then "\\t"
  else if c.toNat = 8 then "\\b"
  else if c.toNat = 12 then "\\f"
  else if c.toNat < 32 then "\\u" ++ hex4 c.toNat
  else if c.toNat < 127 then String.singleton c
  else if c.toNat < 65536 then "\\u" ++ hex4 c.toNat
  else
    let v := c.toNat - 65536
    "\\u" ++ hex4 (55296 + v / 1024) ++ "\\u" ++ hex4 (56320 + v % 1024)

/-- JSON string literal for `s`, as `json.dumps` renders `str` values. -/
def jsonEscapeString (s : String) : String :=
  "\"" ++ String.join (s.toList.map escChar) ++ "\""

/-- Sequential fail-fast map over a list, mirroring how an exception inside
Python's serializer aborts the whole `dumps` call. -/
def mapExcept (f : α → Except String β) : List α → Except String (List β)
  | [] => .ok []
  | a :: as =>
    match f a with
    | .error e => .error e
    | .ok b =>
      match mapExcept f as with
      | .error e => .error e
      | .ok bs => .ok (b :: bs)

/-- Serialize one cell value exactly as `json.dumps(..., default=json_converter)`
does with its DEFAULT options: `allow_nan=True`, so non-finite floats are
emitted as the lenient non-standard tokens `NaN`, `Infinity`, `-Infinity`
(no exception is raised for them); objects the serializer does not know are
passed to `json_converter`, whose `TypeError` is the only failure. -/
def dumpsCell : CellValue → Except String String
  | .pynull => .ok "null"
  | .pybool b => .ok (if b then "true" else "false")
  | .pyint n => .ok (toString n)
  | .pyfloat (.finite t) => .ok t
  | .pyfloat .nan => .ok "NaN"
  | .pyfloat .inf => .ok "Infinity"
  | .pyfloat .ninf => .ok "-Infinity"
  | .pystr s => .ok (jsonEscapeString s)
  | v =>
    match json_converter v with
    | .error e => .error e
    | .ok (.pystr s) => .ok (jsonEscapeString s)
    | .ok _ => .error "converter returned a non-string"

/-- A row as produced by `df_chunk.to_dict('records')`: column name to cell
value, in column order. -/
abbrev PyRow := List (String × CellValue)

/-- Serialize one record dict with `json.dumps` default separators. -/
def dumpsRow (r : PyRow) : Except String String :=
  match mapExcept (fun kv =>
      match dumpsCell kv.2 with
      | .error e => .error e
      | .ok v => .ok (jsonEscapeString kv.1 ++ ": " ++ v)) r with
  | .error e => .error e
  | .ok parts => .ok ("\x7b" ++ String.intercalate ", " parts ++ "\x7d")

/-- Serialize the `payload = {"type": key, "data": records}` dict of
`stream_data`, with `json.dumps` default separators and key order as in
the source's dict literal. -/
def dumpsPayload (key : String) (records : List PyRow) : Except String String :=
  match mapExcept dumpsRow records with
  | .error e => .error e
  | .ok rs =>
      .ok ("\x7b" ++ jsonEscapeString "type" ++ ": " ++ jsonEscapeString key ++ ", "
        ++ jsonEscapeString "data" ++ ": [" ++ String.intercalate ", " rs ++ "]\x7d")

/-- The NDJSON line `stream_data` yields for one batch:
`json.dumps(payload, default=json_converter) + '\n'`. -/
def streamLineFor (key : String) (records : List PyRow) : Except String String :=
  match dumpsPayload key records with
  | .error e => .error e
  | .ok s => .ok (s ++ "\n")

example : pyB64Decode "aGVsbG8=" = some [104, 101, 108, 108, 111] := by decide
example : pyB64Decode "x" = none := by decide
example : streamLineFor "t" [[("c", CellValue.pyfloat PyFloat.nan)]]
    = Except.ok "\x7b\"type\": \"t\", \"data\": [\x7b\"c\": NaN\x7d]\x7d\n" := rfl

/-! ## Credential loading and session establishment

`cryptography`'s `load_pem_private_key` + `private_bytes(DER, PKCS8,
NoEncryption)` is modelled as one oracle (it is an external library);
`snowflake.connector.connect` and cursor execution are driver oracles.
What the repository's own code does around them — environment reads,
truthiness checks, base64 handling, call ordering — is embedded. -/

/-- Combined PEM-parse + DER-conversion oracle: raw key bytes and an
optional password to DER bytes, or a raised parse error. -/
structure CryptoOracle where
  loadPem : List Nat → Option (List Nat) → Except String (List Nat)

/-- Driver oracle for one connection attempt: outcome of
`snowflake.connector.connect` and of executing a verification query on
the fresh session. -/
structure Driver where
  connectOutcome : Except String Unit
  verifyOutcome : Except String Unit

/-- Observable side effects of one `get_snowflake_connection` run:
how many network connection attempts and verification-query executions
happened. -/
structure ConnTrace where
  connectAttempts : Nat
  verifyRuns : Nat
deriving DecidableEq

/-- Environment configuration read by `src/proxy_server.py`. -/
structure ProxyEnvCfg where
  SNOWFLAKE_ACCOUNT : Option String
  SNOWFLAKE_HOST : Option String
  SNOWFLAKE_USER : Option String
  SNOWFLAKE_ROLE : Option String
  SNOWFLAKE_WAREHOUSE : Option String
  SNOWFLAKE_DATABASE : Option String
  SNOWFLAKE_SCHEMA : Option String
  PRIVATE_KEY_STR : Option String
  PRIVATE_KEY_PASSPHRASE : Option String

/-- Environment configuration read by `src/app.py`. -/
structure AppEnvCfg where
  PRIVATE_KEY_STR : Option String
  SNOWFLAKE_USERNAME : Option String
  SNOWFLAKE_ACCOUNT : Option String
  SNOWFLAKE_WAREHOUSE : Option String
  SNOWFLAKE_DATABASE : Option String
  SNOWFLAKE_SCHEMA : Option String
  SNOWFLAKE_ROLE : Option String

/-- The raw key bytes `_load_private_key_from_env` hands to the PEM parser:
`base64.b64decode(key_str)` if it does not raise — note the source's
`if b"-----BEGIN" in raw: pass` is a no-op, so decoded bytes are used
whether or not they look like PEM — and only when decoding raises is the
input re-encoded as raw UTF-8 PEM bytes. -/
def proxyRawKeyBytes (keyStr : String) : List Nat :=
  match pyB64Decode keyStr with
  | some raw => raw
  | none => strBytes keyStr

/-- The `password_bytes = passphrase.encode() if passphrase else None` step from
`_load_private_key_from_env` (an empty passphrase is falsy). -/
def passwordBytesOf (cfg : ProxyEnvCfg) : Option (List Nat) :=
  match cfg.PRIVATE_KEY_PASSPHRASE with
  | none => none
  | some p => if p.isEmpty then none else some (strBytes p)

/-- The `_load_private_key_from_env` helper from `src/proxy_server.py`. -/
def loadPrivateKeyFromEnv (cfg : ProxyEnvCfg) (crypto : CryptoOracle) : Except String (List Nat) :=
  match cfg.PRIVATE_KEY_STR with
  | none => .error "ENV PRIVATE_KEY_STR is missing"
  | some keyStr =>
    if keyStr.isEmpty then .error "ENV PRIVATE_KEY_STR is missing"
    else crypto.loadPem (proxyRawKeyBytes keyStr) (passwordBytesOf cfg)

/-- The `get_snowflake_connection` function from `src/proxy_server.py`: required-env
check first (account, user, warehouse, database, schema), then key
loading, then the network connect, then the verification round trip
`SELECT CURRENT_ACCOUNT(), CURRENT_REGION(), CURRENT_ROLE()`. -/
def proxyGetConnection (cfg : ProxyEnvCfg) (crypto : CryptoOracle) (drv : Driver) :
    Except String Unit × ConnTrace :=
  if !(truthy cfg.SNOWFLAKE_ACCOUNT && truthy cfg.SNOWFLAKE_USER
      && truthy cfg.SNOWFLAKE_WAREHOUSE && truthy cfg.SNOWFLAKE_DATABASE
      && truthy cfg.SNOWFLAKE_SCHEMA) then
    (.error "Missing one of required envs: SNOWFLAKE_ACCOUNT/USER/WAREHOUSE/DATABASE/SCHEMA",
     { connectAttempts := 0, verifyRuns := 0 })
  else
    match loadPrivateKeyFromEnv cfg crypto with
    | .error e => (.error e, { connectAttempts := 0, verifyRuns := 0 })
    | .ok _ =>
      match drv.connectOutcome with
      | .error e => (.error e, { connectAttempts := 1, verifyRuns := 0 })
      | .ok _ =>
        match drv.verifyOutcome with
        | .error e => (.error e, { connectAttempts := 1, verifyRuns := 1 })
        | .ok _ => (.ok (), { connectAttempts := 1, verifyRuns := 1 })

/-- The `conn_params` dict built by `get_snowflake_connection` in
`src/app.py`: `insecure_mode` is the literal `True`, not read from any
configuration input. -/
structure AppConnParams where
  user : Option String
  account : Option String
  warehouse : Option String
  database : Option String
  schema : Option String
  role : Option String
  insecure_mode : Bool
deriving DecidableEq

/-- Construction of `conn_params` in `src/app.py` (lines 60-68). -/
def appConnParams (cfg : AppEnvCfg) : AppConnParams :=
  { user := cfg.SNOWFLAKE_USERNAME
    account := cfg.SNOWFLAKE_ACCOUNT
    warehouse := cfg.SNOWFLAKE_WAREHOUSE
    database := cfg.SNOWFLAKE_DATABASE
    schema := cfg.SNOWFLAKE_SCHEMA
    role := cfg.SNOWFLAKE_ROLE
    insecure_mode := true }

/-- The `get_snowflake_connection` function from `src/app.py`: key decode (no raw-PEM
fallback — a base64 failure propagates), PEM parse with `password=None`
unconditionally, then the `user`/`account` truthiness check, then the
network connect.  No verification query is ever executed.  On success the
established connection is represented by the parameters it was opened
with. -/
def appGetConnection (cfg : AppEnvCfg) (crypto : CryptoOracle) (drv : Driver) :
    Except String AppConnParams × ConnTrace :=
  match cfg.PRIVATE_KEY_STR with
  | none => (.error "Environment variable PRIVATE_KEY_STR is not set.",
             { connectAttempts := 0, verifyRuns := 0 })
  | some keyStr =>
    if keyStr.isEmpty then
      (.error "Environment variable PRIVATE_KEY_STR is not set.",
       { connectAttempts := 0, verifyRuns := 0 })
    else
      match pyB64Decode keyStr with
      | none => (.error "Invalid base64-encoded string",
                 { connectAttempts := 0, verifyRuns := 0 })
      | some keyBytes =>
        match crypto.loadPem keyBytes none with
        | .error e => (.error e, { connectAttempts := 0, verifyRuns := 0 })
        | .ok _ =>
          let params := appConnParams cfg
          if !(truthy params.user && truthy params.account) then
            (.error "SNOWFLAKE_USERNAME or SNOWFLAKE_ACCOUNT environment variable is empty.",
             { connectAttempts := 0, verifyRuns := 0 })
          else
            match drv.connectOutcome with
            | .error e => (.error e, { connectAttempts := 1, verifyRuns := 0 })
            | .ok _ => (.ok params, { connectAttempts := 1, verifyRuns := 0 })

/-! ## Query catalog and the streaming generator -/

/-- One fetched chunk: the rows of `df_chunk.to_dict('records')`. -/
abbrev PyBatch := List PyRow

/-- The `queries` dict of `src/app.py` as the ordered association list a
Python 3.7+ dict literal denotes (fixed insertion order). -/
def queries : List (String × String) :=
  [("productCosts",
    "SELECT sku, description, unit_cost FROM SKU_PROFIT_PROJECT.ERD.MASTER_COST_FACT"),
   ("orders",
    "SELECT order_id, sales_sku, quantity, sales_margin, product_sales, gross_sales, date_time, currency_code, marketplace_name FROM SKU_PROFIT_PROJECT.ERD.AMAZON_NEW_ORDER_FACT"),
   ("refunds",
    "SELECT order_id, sales_sku, quantity, refund_margin, product_refund, gross_refund, date_time, currency_code, marketplace_name FROM SKU_PROFIT_PROJECT.ERD.AMAZON_NEW_REFUND_FACT"),
   ("shipping",
    "SELECT ship_date, order_id, items, shipping_cost FROM SKU_PROFIT_PROJECT.ERD.NEW_SHIPPING"),
   ("inventory_product_level_snap",
    "SELECT TRY_CAST(ASIN AS VARCHAR) AS ASIN, TRY_CAST(CARTS AS VARCHAR) AS CARTS, COST, TRY_CAST(COUNTRY AS VARCHAR) AS COUNTRY, HEIGHT, TRY_CAST(NAME AS VARCHAR) AS NAME, PRICE, PRODUCT_ID, TRY_CAST(SKU AS VARCHAR) AS SKU, TRY_CAST(TAGS AS VARCHAR) AS TAGS, TOTAL_ALLOCATED, TOTAL_AVAILABLE, TOTAL_COMMITTED, TOTAL_MFG_ORDERED, TOTAL_ON_HAND, TOTAL_UNALLOCATED, TO_BE_SHIPPED, TRY_CAST(UPC AS VARCHAR) AS UPC, TRY_CAST(UPDATED AS VARCHAR) AS UPDATED, WEIGHT, WIDTH FROM SKU_PROFIT_PROJECT.ERD.INVENTORY_PRODUCT_LEVEL_SNAP"),
   ("inventory_warehouse_level_snap",
    "SELECT ALLOCATED, AOH, TRY_CAST(ASIN AS VARCHAR) AS ASIN, TRY_CAST(CARTS AS VARCHAR) AS CARTS, CMT, COST, TRY_CAST(COUNTRY AS VARCHAR) AS COUNTRY, HEIGHT, TRY_CAST(LOCATION AS VARCHAR) AS LOCATION, LOW_STOCK_THTD, TRY_CAST(NAME AS VARCHAR) AS NAME, OMO, ON_HAND, OOS_THTD, OPO, POH, PRICE, PRODUCT_ID, TRY_CAST(SKU AS VARCHAR) AS SKU, TRY_CAST(TAGS AS VARCHAR) AS TAGS, TOTAL_ALLOCATED, TOTAL_AVAILABLE, TOTAL_COMMITTED, TOTAL_MFG_ORDERED, TOTAL_ON_HAND, TOTAL_UNALLOCATED, TO_BE_SHIPPED, UNALLOCATED, TRY_CAST(UPC AS VARCHAR) AS UPC, TRY_CAST(UPDATED AS VARCHAR) AS UPDATED, WEIGHT, TRY_CAST(WH_CREATED AS VARCHAR) AS WH_CREATED, WH_ID, TRY_CAST(WH_IS_DEFAULT AS BOOLEAN) AS WH_IS_DEFAULT, TRY_CAST(WH_LAST_CHANGE AS VARCHAR) AS WH_LAST_CHANGE, TRY_CAST(WH_NAME AS VARCHAR) AS WH_NAME, TRY_CAST(WH_SHIP_CFG AS BOOLEAN) AS WH_SHIP_CFG, TRY_CAST(WH_UPDATED AS VARCHAR) AS WH_UPDATED, WIDTH FROM SKU_PROFIT_PROJECT.ERD.INVENTORY_WAREHOUSE_LEVEL_SNAP")]

/-- One NDJSON record of the stream, at the data level (before text
encoding): a success batch tagged with its dataset name, or the terminal
error record. -/
inductive Line where
  | success (dataset : String) (data : PyBatch)
  | error (message : String)
deriving DecidableEq

/-- Environment of one `stream_data` run.  `fetchPlan key` is what the
driver does for the catalog entry `key`: the chunks that are fetched,
encoded and yielded successfully, followed by an optional exception
(raised by `cursor.execute`, by `fetch_pandas_batches`, or by the encoding
of the next chunk — any in-loop exception lands in the same `except`).
`disconnectAfter = some n` models the client closing the response after
consuming `n` lines: the generator receives `GeneratorExit` at its next
`yield`, which `except Exception` does not catch, so no further line is
produced and control goes straight to `finally`. -/
structure StreamEnv where
  connectOutcome : Except String Unit
  fetchPlan : String → List PyBatch × Option String
  disconnectAfter : Option Nat

/-- The per-catalog loop of `stream_data`: for each `(key, query)` in
order, yield one success line per fetched chunk; stop at the first
exception, reporting its message. -/
def runCatalog (fetch : String → List PyBatch × Option String) :
    List (String × String) → List Line × Option String
  | [] => ([], none)
  | kv :: rest =>
    match (fetch kv.1).2 with
    | some msg => (((fetch kv.1).1).map (Line.success kv.1), some msg)
    | none =>
      ((((fetch kv.1).1).map (Line.success kv.1)) ++ (runCatalog fetch rest).1,
       (runCatalog fetch rest).2)

/-- The `finally` clause `if conn and not conn.is_closed(): conn.close()`:
given `none` (no connection ever assigned) or `some isClosed`, how many
`conn.close()` calls run. -/
def connCloseRuns : Option Bool → Nat
  | none => 0
  | some isClosed => if isClosed then 0 else 1

/-- Truncation of the yielded lines by a client disconnect. -/
def truncateTo : Option Nat → List Line → List Line
  | none, ls => ls
  | some n, ls => ls.take n

/-- Result of one full `stream_data` run. -/
structure StreamRun where
  lines : List Line
  acquired : Bool
  closes : Nat

/-- The `stream_data` generator from `src/app.py`.  `conn = None`; the `try` block
acquires the connection and iterates the catalog; `except Exception`
turns the first exception into one final `type: "error"` line; `finally`
closes the connection if one was assigned and is not already closed
(nothing closes it earlier in this flow, so its closed flag is `false`
when `finally` runs). -/
def stream_data (env : StreamEnv) : StreamRun :=
  match env.connectOutcome with
  | .error msg =>
    { lines := truncateTo env.disconnectAfter [Line.error msg]
      acquired := false
      closes := connCloseRuns none }
  | .ok _ =>
    let full := (runCatalog env.fetchPlan queries).1 ++
      (match (runCatalog env.fetchPlan queries).2 with
       | some m => [Line.error m]
       | none => [])
    { lines := truncateTo env.disconnectAfter full
      acquired := true
      closes := connCloseRuns (some false) }

/-! ## The `/api/query` handler of `src/proxy_server.py` -/

/-- Character list of `"SELECT"`. -/
def selectChars : List Char := "SELECT".toList

/-- Does a (stripped) SQL text begin with `SELECT`, case-insensitively —
the property named by the claim, an ASCII-faithful reading. -/
def beginsWithSelectCI (l : List Char) : Bool :=
  selectChars.isPrefixOf (l.map Char.toUpper)

/-- Observable outcome of one `/api/query` request. -/
structure ApiResult where
  status : Nat
  connections : Nat
  executed : Nat
  closes : Nat
deriving DecidableEq

/-- The `api_query` handler from `src/proxy_server.py`.  `bodySql` is
`request.get_json(silent=True).get("sql")` (absent body or absent/null
field is `none`).  The handler strips the text, rejects empty SQL with
400, rejects `sql[:6].upper() != "SELECT"` with 400, and only then calls
`get_snowflake_connection` (outcome `connectOutcome`) and executes the
statement (outcome `queryOutcome`); any exception becomes a 500, and the
inner `finally` closes the connection whenever one was returned. -/
def api_query (bodySql : Option String) (connectOutcome : Except String Unit)
    (queryOutcome : Except String Unit) : ApiResult :=
  let sql := pyStripChars ((bodySql.getD "").toList)
  if sql = [] then
    { status := 400, connections := 0, executed := 0, closes := 0 }
  else if (sql.take 6).map Char.toUpper ≠ selectChars then
    { status := 400, connections := 0, executed := 0, closes := 0 }
  else
    match connectOutcome with
    | .error _ => { status := 500, connections := 1, executed := 0, closes := 0 }
    | .ok _ =>
      match queryOutcome with
      | .error _ => { status := 500, connections := 1, executed := 1, closes := 1 }
      | .ok _ => { status := 200, connections := 1, executed := 1, closes := 1 }

/-! ## Shared concrete oracles and environments for witnesses -/

/-- Oracle for which PEM parsing + DER conversion succeeds and returns the
input bytes unchanged. -/
def cryptoId : CryptoOracle := { loadPem := fun raw _ => .ok raw }

/-- Driver for which both the handshake and the verification query succeed. -/
def drvOk : Driver := { connectOutcome := .ok (), verifyOutcome := .ok () }

/-- Driver whose handshake succeeds but whose session is not actually
usable: any query on it fails. -/
def drvBadVerify : Driver := { connectOutcome := .ok (), verifyOutcome := .error "session unusable" }

/-! ## Helper lemmas -/

/-- Cell values `json.dumps` can serialize without raising: everything in
the model except foreign objects the converter rejects. -/
def CellValue.serializable : CellValue → Bool
  | .pyother _ => false
  | _ => true

theorem mapExcept_isOk {α β : Type} (f : α → Except String β) :
    ∀ l : List α, (∀ a ∈ l, ∃ b, f a = .ok b) → ∃ bs, mapExcept f l = .ok bs := by
  intro l h
  induction l with
  | nil => exact ⟨[], rfl⟩
  | cons a as ih =>
    obtain ⟨b, hb⟩ := h a (List.mem_cons_self a as)
    obtain ⟨bs, hbs⟩ := ih (fun x hx => h x (List.mem_cons_of_mem _ hx))
    exact ⟨b :: bs, by simp [mapExcept, hb, hbs]⟩

theorem dumpsCell_ok_of_serializable :
    ∀ v : CellValue, v.serializable = true → ∃ s, dumpsCell v = .ok s := by
  intro v hv
  cases v with
  | pynull => exact ⟨_, rfl⟩
  | pybool b => exact ⟨_, rfl⟩
  | pyint n => exact ⟨_, rfl⟩
  | pyfloat f => cases f <;> exact ⟨_, rfl⟩
  | pystr s => exact ⟨_, rfl⟩
  | pydatetime iso => exact ⟨_, rfl⟩
  | pyother cls => simp [CellValue.serializable] at hv

theorem dumpsRow_ok_of_serializable :
    ∀ r : PyRow, (∀ kv ∈ r, kv.2.serializable = true) → ∃ s, dumpsRow r = .ok s := by
  intro r h
  obtain ⟨parts, hparts⟩ := mapExcept_isOk
    (fun kv : String × CellValue =>
      match dumpsCell kv.2 with
      | .error e => .error e
      | .ok v => .ok (jsonEscapeString kv.1 ++ ": " ++ v)) r
    (fun kv hkv => by
      obtain ⟨s, hs⟩ := dumpsCell_ok_of_serializable kv.2 (h kv hkv)
      exact ⟨jsonEscapeString kv.1 ++ ": " ++ s, by simp only [hs]⟩)
  have hrow : dumpsRow r = .ok ("\x7b" ++ String.intercalate ", " parts ++ "\x7d") := by
    unfold dumpsRow
    rw [hparts]
  exact ⟨_, hrow⟩

theorem streamLineFor_ok_of_serializable :
    ∀ (key : String) (records : List PyRow),
      (∀ r ∈ records, ∀ kv ∈ r, kv.2.serializable = true) →
      ∃ s, streamLineFor key records = .ok s := by
  intro key records h
  obtain ⟨rs, hrs⟩ :=
    mapExcept_isOk dumpsRow records (fun r hr => dumpsRow_ok_of_serializable r (h r hr))
  have hline : streamLineFor key records
      = .ok (("\x7b" ++ jsonEscapeString "type" ++ ": " ++ jsonEscapeString key ++ ", "
          ++ jsonEscapeString "data" ++ ": [" ++ String.intercalate ", " rs ++ "]\x7d") ++ "\n") := by
    unfold streamLineFor dumpsPayload
    rw [hrs]
  exact ⟨_, hline⟩

/-! ## Claim C1 -/

/-- Claim C1 is FALSE of the code: `stream_data` encodes with
`json.dumps(payload, default=json_converter)` and the DEFAULT
`allow_nan=True`, so a floating-point NaN cell is emitted as the lenient
non-standard token `NaN` — it is neither rendered as JSON `null` nor
rejected with an exception.  Concrete input: one batch for dataset
`orders` containing a single row whose `gross_sales` cell is NaN. -/
theorem C1_nan_token_counterexample :
    streamLineFor "orders" [[("gross_sales", CellValue.pyfloat PyFloat.nan)]]
      = Except.ok "\x7b\"type\": \"orders\", \"data\": [\x7b\"gross_sales\": NaN\x7d]\x7d\n"
    ∧ streamLineFor "orders" [[("gross_sales", CellValue.pyfloat PyFloat.nan)]]
      ≠ Except.ok "\x7b\"type\": \"orders\", \"data\": [\x7b\"gross_sales\": null\x7d]\x7d\n" := by
  constructor
  · rfl
  · intro hcontra
    have hfact : streamLineFor "orders" [[("gross_sales", CellValue.pyfloat PyFloat.nan)]]
        = Except.ok "\x7b\"type\": \"orders\", \"data\": [\x7b\"gross_sales\": NaN\x7d]\x7d\n" := rfl
    have hs := Except.ok.inj (hfact.symm.trans hcontra)
    exact absurd hs (by decide)

/-- Claim C1, amended to the code's behavior: the encoding step is
lenient, not strict.  Non-finite float cells are emitted as the
non-standard tokens `NaN`, `Infinity` and `-Infinity` (never `null`, never
an exception), and encoding a batch raises only when a cell is an object
kind the converter rejects: batches all of whose cells are serializable —
NaN and infinities included — always encode to a line successfully. -/
theorem C1_lenient_nonfinite_encoding :
    (dumpsCell (CellValue.pyfloat PyFloat.nan) = Except.ok "NaN"
      ∧ dumpsCell (CellValue.pyfloat PyFloat.inf) = Except.ok "Infinity"
      ∧ dumpsCell (CellValue.pyfloat PyFloat.ninf) = Except.ok "-Infinity")
    ∧ (∀ cls : String, dumpsCell (CellValue.pyother cls)
        = Except.error ("Object of type " ++ cls ++ " is not JSON serializable"))
    ∧ (∀ (key : String) (records : List PyRow),
        (∀ r ∈ records, ∀ kv ∈ r, kv.2.serializable = true) →
        ∃ s, streamLineFor key records = .ok s) := by
  refine ⟨⟨rfl, rfl, rfl⟩, fun cls => rfl, streamLineFor_ok_of_serializable⟩

/-- Witness for C1: a concrete NaN-carrying batch encodes successfully
(no loud failure), by the amended theorem. -/
theorem C1_lenient_nonfinite_encoding_witness :
    ∃ s, streamLineFor "orders" [[("gross_sales", CellValue.pyfloat PyFloat.nan)]] = .ok s :=
  C1_lenient_nonfinite_encoding.2.2 "orders" [[("gross_sales", CellValue.pyfloat PyFloat.nan)]]
    (by decide)

/-! ## Claim C2 -/

/-- Did an `Except`-modelled call return normally? -/
def exceptOkB : Except String Unit → Bool
  | .ok _ => true
  | .error _ => false

/-- Claim C2: in every `stream_data` run — success, a config or credential
error raised before connecting, an auth error, a mid-fetch failure, or
early termination by client disconnect (all of which the quantified
environment covers) — the `finally` clause closes the session exactly once
when a connection was acquired, and attempts no close when acquisition
failed; acquisition succeeds exactly when `get_snowflake_connection`
returned normally. -/
theorem C2_session_close_exactly_once :
    ∀ env : StreamEnv,
      (stream_data env).closes = (stream_data env).acquired.toNat
      ∧ (stream_data env).acquired = exceptOkB env.connectOutcome := by
  intro env
  cases h : env.connectOutcome <;>
    simp [stream_data, h, exceptOkB, connCloseRuns]

/-! ## Claim C3 -/

/-- Is a stream record the terminal error record? -/
def isErrorLine : Line → Bool
  | .error _ => true
  | _ => false

/-- Number of error records in an emitted line sequence. -/
def errorsCount (ls : List Line) : Nat :=
  (ls.filter isErrorLine).length

/-- Returns `true` iff every error record of the sequence sits at the very last
position (no line of any kind follows an error line). -/
def errorTerminalB : List Line → Bool
  | [] => true
  | l :: rest => if rest.isEmpty then true else !isErrorLine l && errorTerminalB rest

theorem runCatalog_lines_no_error :
    ∀ (cat : List (String × String)) (fetch : String → List PyBatch × Option String),
      ∀ l ∈ (runCatalog fetch cat).1, isErrorLine l = false := by
  intro cat fetch
  induction cat with
  | nil => intro l hl; simp [runCatalog] at hl
  | cons kv rest ih =>
    intro l hl
    simp only [runCatalog] at hl
    cases hfail : (fetch kv.1).2 with
    | some msg =>
      rw [hfail] at hl
      simp only [List.mem_map] at hl
      obtain ⟨r, _, rfl⟩ := hl
      rfl
    | none =>
      rw [hfail] at hl
      simp only [List.mem_append, List.mem_map] at hl
      rcases hl with ⟨r, _, rfl⟩ | h
      · rfl
      · exact ih l h

theorem errorTerminalB_of_no_error :
    ∀ S : List Line, (∀ l ∈ S, isErrorLine l = false) → errorTerminalB S = true := by
  intro S h
  induction S with
  | nil => rfl
  | cons l rest ih =>
    cases rest with
    | nil => rfl
    | cons l2 rest2 =>
      have hhead := h l (List.mem_cons_self _ _)
      have htail := ih (fun x hx => h x (List.mem_cons_of_mem _ hx))
      have heq : errorTerminalB (l :: l2 :: rest2)
          = (!isErrorLine l && errorTerminalB (l2 :: rest2)) := rfl
      rw [heq, hhead, htail]
      rfl

theorem errorTerminalB_take_append :
    ∀ (S : List Line) (e : Line) (n : Nat), (∀ l ∈ S, isErrorLine l = false) →
      errorTerminalB ((S ++ [e]).take n) = true := by
  intro S
  induction S with
  | nil =>
    intro e n _
    cases n with
    | zero => rfl
    | succ m => simp [errorTerminalB]
  | cons l S2 ih =>
    intro e n h
    cases n with
    | zero => rfl
    | succ m =>
      have hhead := h l (List.mem_cons_self _ _)
      have htail := ih e m (fun x hx => h x (List.mem_cons_of_mem _ hx))
      simp only [List.cons_append, List.take_succ_cons]
      cases htake : (S2 ++ [e]).take m with
      | nil => rfl
      | cons t ts =>
        rw [htake] at htail
        have heq : errorTerminalB (l :: t :: ts)
            = (!isErrorLine l && errorTerminalB (t :: ts)) := rfl
        rw [heq, hhead, htail]
        rfl

theorem errorsCount_take_le :
    ∀ (ls : List Line) (n : Nat), errorsCount (ls.take n) ≤ errorsCount ls := by
  intro ls n
  exact List.Sublist.length_le (List.Sublist.filter _ (List.take_sublist n ls))

theorem errorsCount_no_error :
    ∀ S : List Line, (∀ l ∈ S, isErrorLine l = false) → errorsCount S = 0 := by
  intro S h
  unfold errorsCount
  rw [List.filter_eq_nil_iff.mpr (fun a ha => by simp [h a ha])]
  rfl

theorem errorsCount_append_single :
    ∀ (S : List Line) (e : Line), (∀ l ∈ S, isErrorLine l = false) →
      errorsCount (S ++ [e]) ≤ 1 := by
  intro S e h
  unfold errorsCount
  rw [List.filter_append]
  rw [List.filter_eq_nil_iff.mpr (fun a ha => by simp [h a ha])]
  cases he : isErrorLine e <;> simp [List.filter, he]

/-- Claim C3: in every run of `stream_data` — any connection outcome, any
per-dataset fetch behavior, any client-disconnect truncation — the
emitted stream contains at most one `type: "error"` record, and no record
of any kind follows an error record: the output is zero or more success
lines followed by at most one terminal error line. -/
theorem C3_error_line_is_terminal :
    ∀ env : StreamEnv,
      errorsCount (stream_data env).lines ≤ 1
      ∧ errorTerminalB (stream_data env).lines = true := by
  intro env
  cases hconn : env.connectOutcome with
  | error msg =>
    have hlines : (stream_data env).lines
        = truncateTo env.disconnectAfter [Line.error msg] := by
      simp [stream_data, hconn]
    cases hd : env.disconnectAfter with
    | none =>
      rw [hlines, hd]
      exact ⟨by simp [truncateTo, errorsCount, List.filter, isErrorLine], rfl⟩
    | some n =>
      rw [hlines, hd]
      constructor
      · exact le_trans (errorsCount_take_le [Line.error msg] n)
          (le_of_eq (rfl : errorsCount [Line.error msg] = 1))
      · exact errorTerminalB_take_append [] (Line.error msg) n (by intro l hl; simp at hl)
  | ok u =>
    have hnoerr := runCatalog_lines_no_error queries env.fetchPlan
    cases hfail : (runCatalog env.fetchPlan queries).2 with
    | some m =>
      have hlines : (stream_data env).lines
          = truncateTo env.disconnectAfter
              ((runCatalog env.fetchPlan queries).1 ++ [Line.error m]) := by
        simp [stream_data, hconn, hfail]
      cases hd : env.disconnectAfter with
      | none =>
        rw [hlines, hd]
        constructor
        · exact errorsCount_append_single (runCatalog env.fetchPlan queries).1
            (Line.error m) hnoerr
        · have := errorTerminalB_take_append (runCatalog env.fetchPlan queries).1 (Line.error m)
            ((runCatalog env.fetchPlan queries).1 ++ [Line.error m]).length hnoerr
          rwa [List.take_length] at this
      | some n =>
        rw [hlines, hd]
        constructor
        · exact le_trans
            (errorsCount_take_le ((runCatalog env.fetchPlan queries).1 ++ [Line.error m]) n)
            (errorsCount_append_single (runCatalog env.fetchPlan queries).1 (Line.error m) hnoerr)
        · exact errorTerminalB_take_append (runCatalog env.fetchPlan queries).1
            (Line.error m) n hnoerr
    | none =>
      have hlines : (stream_data env).lines
          = truncateTo env.disconnectAfter ((runCatalog env.fetchPlan queries).1 ++ []) := by
        simp [stream_data, hconn, hfail]
      have hS : ∀ l ∈ (stream_data env).lines, isErrorLine l = false := by
        rw [hlines]
        intro l hl
        cases hd : env.disconnectAfter with
        | none =>
          rw [hd] at hl
          simp only [truncateTo, List.append_nil] at hl
          exact hnoerr l hl
        | some n =>
          rw [hd] at hl
          simp only [truncateTo, List.append_nil] at hl
          exact hnoerr l (List.mem_of_mem_take hl)
      constructor
      · rw [errorsCount_no_error _ hS]
        exact Nat.zero_le 1
      · exact errorTerminalB_of_no_error _ hS

/-! ## Claims C4 and C5 -/

theorem runCatalog_first_failure :
    ∀ (cat : List (String × String)) (fetch : String → List PyBatch × Option String)
      (i : Nat) (kvi : String × String) (msg : String),
      cat[i]? = some kvi →
      (∀ kv ∈ cat.take i, (fetch kv.1).2 = none) →
      (fetch kvi.1).2 = some msg →
      runCatalog fetch cat =
        ((cat.take (i + 1)).flatMap (fun kv => ((fetch kv.1).1).map (Line.success kv.1)),
         some msg) := by
  intro cat
  induction cat with
  | nil => intro fetch i kvi msg hget _ _; simp at hget
  | cons kv rest ih =>
    intro fetch i kvi msg hget hok hfail
    cases i with
    | zero =>
      have hkv : kvi = kv := by simpa using hget.symm
      subst hkv
      simp [runCatalog, hfail]
    | succ j =>
      have hhead : (fetch kv.1).2 = none := by
        apply hok
        simp [List.take_succ_cons]
      have htail := ih fetch j kvi msg (by simpa using hget)
        (fun kv2 hkv2 => hok kv2 (by simp [List.take_succ_cons, hkv2]))
        hfail
      simp [runCatalog, hhead, htail, List.take_succ_cons]

theorem runCatalog_all_ok :
    ∀ (cat : List (String × String)) (fetch : String → List PyBatch × Option String),
      (∀ kv ∈ cat, (fetch kv.1).2 = none) →
      runCatalog fetch cat =
        (cat.flatMap (fun kv => ((fetch kv.1).1).map (Line.success kv.1)), none) := by
  intro cat
  induction cat with
  | nil => intro fetch _; rfl
  | cons kv rest ih =>
    intro fetch h
    have hhead : (fetch kv.1).2 = none := h kv (List.mem_cons_self _ _)
    have htail := ih fetch (fun kv2 hkv2 => h kv2 (List.mem_cons_of_mem _ hkv2))
    simp [runCatalog, hhead, htail]

/-- Claim C4: if executing or fetching the statement of some catalog entry
fails (the first failure being at index `i`), the whole export aborts at
that point: the emitted stream is exactly the success lines of the
datasets up to and including the failing one, followed by exactly one
terminal error record — no batch of any later catalog entry is emitted. -/
theorem C4_statement_failure_aborts_export :
    ∀ (env : StreamEnv) (i : Nat) (kvi : String × String) (msg : String),
      env.connectOutcome = Except.ok () →
      env.disconnectAfter = none →
      queries[i]? = some kvi →
      (∀ kv ∈ queries.take i, (env.fetchPlan kv.1).2 = none) →
      (env.fetchPlan kvi.1).2 = some msg →
      (stream_data env).lines =
        ((queries.take (i + 1)).flatMap
          (fun kv => ((env.fetchPlan kv.1).1).map (Line.success kv.1)))
        ++ [Line.error msg] := by
  intro env i kvi msg hconn hd hget hok hfail
  have hcat := runCatalog_first_failure queries env.fetchPlan i kvi msg hget hok hfail
  simp [stream_data, hconn, hd, hcat, truncateTo]

/-- Environment for the C4 witness: the connection succeeds and the very
first catalog statement (`productCosts`) raises before yielding any
chunk; no disconnect. -/
def envC4 : StreamEnv :=
  { connectOutcome := .ok ()
    fetchPlan := fun _ => ([], some "SQL compilation error")
    disconnectAfter := none }

/-- Witness for C4 at a concrete environment: the whole export is the
single terminal error record. -/
theorem C4_statement_failure_aborts_export_witness :
    (stream_data envC4).lines = [Line.error "SQL compilation error"] := by
  have h := C4_statement_failure_aborts_export envC4 0
    ("productCosts",
     "SELECT sku, description, unit_cost FROM SKU_PROFIT_PROJECT.ERD.MASTER_COST_FACT")
    "SQL compilation error" rfl rfl rfl
    (by intro kv hkv; simp [queries] at hkv) rfl
  simpa [envC4] using h

/-- Claim C5: in a fully successful export (connection ok, every catalog
statement succeeds, no disconnect), the stream is exactly one contiguous
group of success lines per catalog entry, concatenated in the catalog's
fixed insertion order — and that order is `productCosts, orders, refunds,
shipping, inventory_product_level_snap, inventory_warehouse_level_snap`;
no error line is emitted. -/
theorem C5_success_stream_in_catalog_order :
    ∀ env : StreamEnv,
      env.connectOutcome = Except.ok () →
      env.disconnectAfter = none →
      (∀ kv ∈ queries, (env.fetchPlan kv.1).2 = none) →
      (stream_data env).lines =
        queries.flatMap (fun kv => ((env.fetchPlan kv.1).1).map (Line.success kv.1))
      ∧ queries.map Prod.fst =
        ["productCosts", "orders", "refunds", "shipping",
         "inventory_product_level_snap", "inventory_warehouse_level_snap"]
      ∧ errorsCount (stream_data env).lines = 0 := by
  intro env hconn hd hok
  have hcat := runCatalog_all_ok queries env.fetchPlan hok
  have hlines : (stream_data env).lines =
      queries.flatMap (fun kv => ((env.fetchPlan kv.1).1).map (Line.success kv.1)) := by
    simp [stream_data, hconn, hd, hcat, truncateTo]
  refine ⟨hlines, rfl, ?_⟩
  apply errorsCount_no_error
  intro l hl
  rw [hlines] at hl
  have := runCatalog_lines_no_error queries env.fetchPlan
  rw [hcat] at this
  exact this l hl

/-- Environment for the C5 witness: every catalog statement yields exactly
one single-row chunk carrying its dataset name. -/
def envC5 : StreamEnv :=
  { connectOutcome := .ok ()
    fetchPlan := fun key => ([[[("dataset", CellValue.pystr key)]]], none)
    disconnectAfter := none }

/-- Witness for C5 at a concrete environment. -/
theorem C5_success_stream_in_catalog_order_witness :
    (stream_data envC5).lines =
      queries.flatMap (fun kv => ((envC5.fetchPlan kv.1).1).map (Line.success kv.1))
    ∧ queries.map Prod.fst =
      ["productCosts", "orders", "refunds", "shipping",
       "inventory_product_level_snap", "inventory_warehouse_level_snap"]
    ∧ errorsCount (stream_data envC5).lines = 0 :=
  C5_success_stream_in_catalog_order envC5 rfl rfl (fun _ _ => rfl)

/-! ## Claim C6 -/

/-- Proxy configuration whose key value is valid base64 of non-PEM bytes. -/
def cfgC6 : ProxyEnvCfg :=
  { SNOWFLAKE_ACCOUNT := none, SNOWFLAKE_HOST := none, SNOWFLAKE_USER := none
    SNOWFLAKE_ROLE := none, SNOWFLAKE_WAREHOUSE := none, SNOWFLAKE_DATABASE := none
    SNOWFLAKE_SCHEMA := none, PRIVATE_KEY_STR := some "aGVsbG8="
    PRIVATE_KEY_PASSPHRASE := none }

/-- Claim C6 is FALSE of the code: for the input `"aGVsbG8="` base64
decoding succeeds and yields the bytes of `"hello"`, which do not look
like PEM (no `-----BEGIN`), yet the loader does NOT fall back to treating
the original input as raw PEM bytes — the `if b"-----BEGIN" in raw: pass`
check in `_load_private_key_from_env` is a no-op, and the decoded non-PEM
bytes are handed to the PEM parser as-is. -/
theorem C6_no_pem_fallback_counterexample :
    pyB64Decode "aGVsbG8=" = some [104, 101, 108, 108, 111]
    ∧ looksLikePEM [104, 101, 108, 108, 111] = false
    ∧ proxyRawKeyBytes "aGVsbG8=" = [104, 101, 108, 108, 111]
    ∧ proxyRawKeyBytes "aGVsbG8=" ≠ strBytes "aGVsbG8="
    ∧ loadPrivateKeyFromEnv cfgC6 cryptoId = .ok [104, 101, 108, 108, 111] := by
  refine ⟨by decide, by decide, by decide, by decide, rfl⟩

/-- Claim C6, amended: in `proxy_server.py` the loader attempts base64
decoding first, and falls back to the raw input bytes ONLY when decoding
raises; when decoding succeeds, the decoded bytes are parsed as PEM even
when they do not look like PEM (the PEM-marker check is a no-op).  In
`app.py` there is no fallback at all: a base64 decoding failure aborts
connection establishment. -/
theorem C6_fallback_only_on_decode_failure :
    (∀ (cfg : ProxyEnvCfg) (crypto : CryptoOracle) (keyStr : String),
      cfg.PRIVATE_KEY_STR = some keyStr → keyStr.isEmpty = false →
      pyB64Decode keyStr = none →
      loadPrivateKeyFromEnv cfg crypto = crypto.loadPem (strBytes keyStr) (passwordBytesOf cfg))
    ∧ (∀ (cfg : ProxyEnvCfg) (crypto : CryptoOracle) (keyStr : String) (raw : List Nat),
      cfg.PRIVATE_KEY_STR = some keyStr → keyStr.isEmpty = false →
      pyB64Decode keyStr = some raw →
      loadPrivateKeyFromEnv cfg crypto = crypto.loadPem raw (passwordBytesOf cfg))
    ∧ (∀ (cfg : AppEnvCfg) (crypto : CryptoOracle) (drv : Driver) (keyStr : String),
      cfg.PRIVATE_KEY_STR = some keyStr → keyStr.isEmpty = false →
      pyB64Decode keyStr = none →
      (appGetConnection cfg crypto drv).1 = .error "Invalid base64-encoded string") := by
  refine ⟨?_, ?_, ?_⟩
  · intro cfg crypto keyStr hkey hne hdec
    simp [loadPrivateKeyFromEnv, hkey, hne, proxyRawKeyBytes, hdec]
  · intro cfg crypto keyStr raw hkey hne hdec
    simp [loadPrivateKeyFromEnv, hkey, hne, proxyRawKeyBytes, hdec]
  · intro cfg crypto drv keyStr hkey hne hdec
    simp [appGetConnection, hkey, hne, hdec]

/-- Witness for the amended C6: with key value `"x"` (invalid base64
padding, so decoding raises), the loader parses the raw UTF-8 bytes of
the input. -/
theorem C6_fallback_only_on_decode_failure_witness :
    loadPrivateKeyFromEnv
        { cfgC6 with PRIVATE_KEY_STR := some "x" } cryptoId
      = cryptoId.loadPem (strBytes "x")
          (passwordBytesOf { cfgC6 with PRIVATE_KEY_STR := some "x" }) :=
  C6_fallback_only_on_decode_failure.1
    { cfgC6 with PRIVATE_KEY_STR := some "x" } cryptoId "x" rfl rfl (by decide)

/-! ## Claim C7 -/

/-- Proxy configuration with account and user present but warehouse
absent. -/
def cfgC7 : ProxyEnvCfg :=
  { SNOWFLAKE_ACCOUNT := some "MYACCT", SNOWFLAKE_HOST := none
    SNOWFLAKE_USER := some "MYUSER", SNOWFLAKE_ROLE := none
    SNOWFLAKE_WAREHOUSE := none, SNOWFLAKE_DATABASE := some "MYDB"
    SNOWFLAKE_SCHEMA := some "MYSCHEMA", PRIVATE_KEY_STR := some "aGVsbG8="
    PRIVATE_KEY_PASSPHRASE := none }

/-- Claim C7 is FALSE of the code: in `proxy_server.py`, with account and
user both present and non-empty, the mere absence of `SNOWFLAKE_WAREHOUSE`
makes session establishment fail with the missing-envs configuration
error (so it is not true that no parameter other than account and user
causes such a failure). -/
theorem C7_extra_required_params_counterexample :
    truthy cfgC7.SNOWFLAKE_ACCOUNT = true
    ∧ truthy cfgC7.SNOWFLAKE_USER = true
    ∧ proxyGetConnection cfgC7 cryptoId drvOk
      = (.error "Missing one of required envs: SNOWFLAKE_ACCOUNT/USER/WAREHOUSE/DATABASE/SCHEMA",
         { connectAttempts := 0, verifyRuns := 0 }) := by
  refine ⟨rfl, rfl, rfl⟩

/-- Claim C7, amended: both establishers fail fast with a configuration
error before any network I/O when account or user is missing or empty,
but the required sets differ per variant — `app.py` requires exactly
account and user (all other parameters may be absent and it still
proceeds to the connection attempt), while `proxy_server.py` additionally
requires warehouse, database and schema, and the absence of any of those
five triggers the same pre-network configuration failure. -/
theorem C7_required_connection_params :
    (∀ (cfg : ProxyEnvCfg) (crypto : CryptoOracle) (drv : Driver),
      (truthy cfg.SNOWFLAKE_ACCOUNT && truthy cfg.SNOWFLAKE_USER
        && truthy cfg.SNOWFLAKE_WAREHOUSE && truthy cfg.SNOWFLAKE_DATABASE
        && truthy cfg.SNOWFLAKE_SCHEMA) = false →
      proxyGetConnection cfg crypto drv
        = (.error "Missing one of required envs: SNOWFLAKE_ACCOUNT/USER/WAREHOUSE/DATABASE/SCHEMA",
           { connectAttempts := 0, verifyRuns := 0 }))
    ∧ (∀ (cfg : AppEnvCfg) (crypto : CryptoOracle) (drv : Driver),
      (truthy cfg.SNOWFLAKE_USERNAME && truthy cfg.SNOWFLAKE_ACCOUNT) = false →
      (appGetConnection cfg crypto drv).2.connectAttempts = 0
        ∧ ∃ e, (appGetConnection cfg crypto drv).1 = .error e)
    ∧ (∀ (cfg : AppEnvCfg) (crypto : CryptoOracle) (drv : Driver)
        (keyStr : String) (raw pkb : List Nat),
      cfg.PRIVATE_KEY_STR = some keyStr → keyStr.isEmpty = false →
      pyB64Decode keyStr = some raw → crypto.loadPem raw none = .ok pkb →
      (truthy cfg.SNOWFLAKE_USERNAME && truthy cfg.SNOWFLAKE_ACCOUNT) = true →
      (appGetConnection cfg crypto drv).2.connectAttempts = 1) := by
  refine ⟨?_, ?_, ?_⟩
  · intro cfg crypto drv h
    simp [proxyGetConnection, h]
  · intro cfg crypto drv h
    have hcheck : (truthy (appConnParams cfg).user
        && truthy (appConnParams cfg).account) = false := by
      simpa [appConnParams] using h
    unfold appGetConnection
    cases hkey : cfg.PRIVATE_KEY_STR with
    | none => exact ⟨rfl, _, rfl⟩
    | some keyStr =>
      dsimp only
      cases hne : keyStr.isEmpty with
      | true => simp
      | false =>
        simp only [Bool.false_eq_true, if_false]
        cases hdec : pyB64Decode keyStr with
        | none => exact ⟨rfl, _, rfl⟩
        | some raw =>
          dsimp only
          cases hpem : crypto.loadPem raw none with
          | error e => exact ⟨rfl, _, rfl⟩
          | ok pkb =>
            dsimp only
            simp [hcheck]
  · intro cfg crypto drv keyStr raw pkb hkey hne hdec hpem h
    have hcheck : (truthy (appConnParams cfg).user
        && truthy (appConnParams cfg).account) = true := by
      simpa [appConnParams] using h
    cases hconn : drv.connectOutcome with
    | error e => simp [appGetConnection, hkey, hne, hdec, hpem, hcheck, hconn]
    | ok u => simp [appGetConnection, hkey, hne, hdec, hpem, hcheck, hconn]

/-- Witness for the amended C7: with user absent, `proxy_server.py` fails
fast before any network I/O. -/
theorem C7_required_connection_params_witness :
    proxyGetConnection { cfgC7 with SNOWFLAKE_USER := none } cryptoId drvOk
      = (.error "Missing one of required envs: SNOWFLAKE_ACCOUNT/USER/WAREHOUSE/DATABASE/SCHEMA",
         { connectAttempts := 0, verifyRuns := 0 }) :=
  C7_required_connection_params.1 { cfgC7 with SNOWFLAKE_USER := none } cryptoId drvOk (by decide)

/-! ## Claim C8 -/

/-- Fully-populated `app.py` configuration used for concrete runs. -/
def cfgApp : AppEnvCfg :=
  { PRIVATE_KEY_STR := some "aGVsbG8=", SNOWFLAKE_USERNAME := some "MYUSER"
    SNOWFLAKE_ACCOUNT := some "MYACCT", SNOWFLAKE_WAREHOUSE := some "MYWH"
    SNOWFLAKE_DATABASE := some "MYDB", SNOWFLAKE_SCHEMA := some "MYSCHEMA"
    SNOWFLAKE_ROLE := some "MYROLE" }

/-- Claim C8 is FALSE of the code: `app.py`'s `get_snowflake_connection`
hands the session to the pipeline right after the handshake, running zero
verification queries — even against a driver whose session is not
actually usable (any query on it would fail), the function reports
success. -/
theorem C8_no_verification_query_counterexample :
    appGetConnection cfgApp cryptoId drvBadVerify
      = (.ok (appConnParams cfgApp), { connectAttempts := 1, verifyRuns := 0 }) := rfl

/-- Claim C8, amended: only `proxy_server.py`'s establisher runs the
trivial verification round trip (`SELECT CURRENT_ACCOUNT(), ...`) after a
successful handshake, and a failure of that query surfaces as a
connection failure; `app.py`'s establisher never executes a verification
query on any path. -/
theorem C8_verification_only_in_proxy :
    (∀ (cfg : ProxyEnvCfg) (crypto : CryptoOracle) (drv : Driver) (pkb : List Nat),
      (truthy cfg.SNOWFLAKE_ACCOUNT && truthy cfg.SNOWFLAKE_USER
        && truthy cfg.SNOWFLAKE_WAREHOUSE && truthy cfg.SNOWFLAKE_DATABASE
        && truthy cfg.SNOWFLAKE_SCHEMA) = true →
      loadPrivateKeyFromEnv cfg crypto = .ok pkb →
      drv.connectOutcome = .ok () →
      (proxyGetConnection cfg crypto drv).2.verifyRuns = 1
        ∧ (∀ e, drv.verifyOutcome = .error e →
            (proxyGetConnection cfg crypto drv).1 = .error e))
    ∧ (∀ (cfg : AppEnvCfg) (crypto : CryptoOracle) (drv : Driver),
      (appGetConnection cfg crypto drv).2.verifyRuns = 0) := by
  constructor
  · intro cfg crypto drv pkb hcfg hpem hconn
    constructor
    · cases hver : drv.verifyOutcome with
      | error e => simp [proxyGetConnection, hcfg, hpem, hconn, hver]
      | ok u => simp [proxyGetConnection, hcfg, hpem, hconn, hver]
    · intro e hver
      simp [proxyGetConnection, hcfg, hpem, hconn, hver]
  · intro cfg crypto drv
    unfold appGetConnection
    cases hkey : cfg.PRIVATE_KEY_STR with
    | none => rfl
    | some keyStr =>
      dsimp only
      cases hne : keyStr.isEmpty with
      | true => simp
      | false =>
        simp only [Bool.false_eq_true, if_false]
        cases hdec : pyB64Decode keyStr with
        | none => rfl
        | some raw =>
          dsimp only
          cases hpem : crypto.loadPem raw none with
          | error e => rfl
          | ok pkb =>
            dsimp only
            cases hchk : (!(truthy (appConnParams cfg).user
                && truthy (appConnParams cfg).account)) with
            | true => simp [hchk]
            | false =>
              simp only [hchk, Bool.false_eq_true, if_false]
              cases hconn : drv.connectOutcome with
              | error e => rfl
              | ok u => rfl

/-- Witness for the amended C8: a concrete proxy configuration whose
handshake succeeds but whose session is unusable — the verification query
runs once and its failure is reported as a connection failure. -/
theorem C8_verification_only_in_proxy_witness :
    (proxyGetConnection
        { cfgC7 with SNOWFLAKE_WAREHOUSE := some "MYWH" } cryptoId drvBadVerify).2.verifyRuns = 1
    ∧ (proxyGetConnection
        { cfgC7 with SNOWFLAKE_WAREHOUSE := some "MYWH" } cryptoId drvBadVerify).1
      = .error "session unusable" := by
  have h := C8_verification_only_in_proxy.1
    { cfgC7 with SNOWFLAKE_WAREHOUSE := some "MYWH" } cryptoId drvBadVerify
    [104, 101, 108, 108, 111] (by decide) rfl rfl
  exact ⟨h.1, h.2 "session unusable" rfl⟩

/-! ## Claim C9 -/

/-- Claim C9 is FALSE of the code: `app.py` opens its connection with
`insecure_mode=True` hardcoded in the `conn_params` dict.  The
configuration surface (`AppEnvCfg`, mirroring every environment variable
the script reads) contains no switch for it, so here is a connection
opened without the operator enabling any insecure/skip-validation mode —
and certificate-validation bypass is ON for it. -/
theorem C9_insecure_mode_counterexample :
    (appGetConnection cfgApp cryptoId drvOk).1 = .ok (appConnParams cfgApp)
    ∧ (appConnParams cfgApp).insecure_mode = true := ⟨rfl, rfl⟩

/-- Claim C9, amended: in `app.py` the certificate-validation bypass is a
hardcoded silent default, not an explicit off-by-default switch — every
`conn_params` dict it ever builds, and hence every connection it
successfully opens, has `insecure_mode = True`, whatever the
configuration. -/
theorem C9_insecure_mode_hardcoded :
    (∀ cfg : AppEnvCfg, (appConnParams cfg).insecure_mode = true)
    ∧ (∀ (cfg : AppEnvCfg) (crypto : CryptoOracle) (drv : Driver)
        (p : AppConnParams) (t : ConnTrace),
      appGetConnection cfg crypto drv = (.ok p, t) → p.insecure_mode = true) := by
  constructor
  · intro cfg; rfl
  · intro cfg crypto drv p t h
    unfold appGetConnection at h
    cases hkey : cfg.PRIVATE_KEY_STR with
    | none => rw [hkey] at h; exact absurd (congrArg Prod.fst h) (by simp)
    | some keyStr =>
      rw [hkey] at h
      dsimp only at h
      cases hne : keyStr.isEmpty with
      | true => rw [hne] at h; exact absurd (congrArg Prod.fst h) (by simp)
      | false =>
        rw [hne] at h
        simp only [Bool.false_eq_true, if_false] at h
        cases hdec : pyB64Decode keyStr with
        | none => rw [hdec] at h; exact absurd (congrArg Prod.fst h) (by simp)
        | some raw =>
          rw [hdec] at h
          dsimp only at h
          cases hpem : crypto.loadPem raw none with
          | error e => rw [hpem] at h; exact absurd (congrArg Prod.fst h) (by simp)
          | ok pkb =>
            rw [hpem] at h
            dsimp only at h
            cases hchk : (!(truthy (appConnParams cfg).user
                && truthy (appConnParams cfg).account)) with
            | true => rw [hchk] at h; simp at h
            | false =>
              rw [hchk] at h
              simp only [Bool.false_eq_true, if_false] at h
              cases hconn : drv.connectOutcome with
              | error e => rw [hconn] at h; exact absurd (congrArg Prod.fst h) (by simp)
              | ok u =>
                rw [hconn] at h
                have hp : p = appConnParams cfg := by
                  have := congrArg Prod.fst h
                  simpa using this.symm
                rw [hp]
                rfl

/-- Witness for the amended C9: the connection `app.py` opens under
`cfgApp` has the bypass enabled. -/
theorem C9_insecure_mode_hardcoded_witness :
    (appConnParams cfgApp).insecure_mode = true :=
  C9_insecure_mode_hardcoded.2 cfgApp cryptoId drvOk (appConnParams cfgApp)
    { connectAttempts := 1, verifyRuns := 0 } rfl

/-! ## Claim C10 -/

/-- Claim C10: every POST body without a non-empty `sql` field, and every
SQL text that after stripping does not begin with `SELECT`
case-insensitively, is answered with HTTP 400 — and in that case the
handler neither calls `get_snowflake_connection` nor executes the
statement. -/
theorem C10_non_select_rejected_before_connecting :
    ∀ (bodySql : Option String) (connectOutcome queryOutcome : Except String Unit),
      (pyStripChars ((bodySql.getD "").toList) = []
        ∨ beginsWithSelectCI (pyStripChars ((bodySql.getD "").toList)) = false) →
      api_query bodySql connectOutcome queryOutcome
        = { status := 400, connections := 0, executed := 0, closes := 0 } := by
  intro bodySql c q h
  unfold api_query
  rcases h with h | h
  · rw [if_pos h]
  · by_cases he : pyStripChars ((bodySql.getD "").toList) = []
    · rw [if_pos he]
    · have hne : ((pyStripChars ((bodySql.getD "").toList)).take 6).map Char.toUpper
          ≠ selectChars := by
        intro heq
        have hpre : selectChars <+: ((pyStripChars ((bodySql.getD "").toList)).map Char.toUpper) := by
          rw [← heq, List.map_take]
          exact List.take_prefix 6 _
        have hci : beginsWithSelectCI (pyStripChars ((bodySql.getD "").toList)) = true := by
          unfold beginsWithSelectCI
          exact List.isPrefixOf_iff_prefix.mpr hpre
        rw [h] at hci
        exact Bool.false_ne_true hci
      rw [if_neg he, if_pos hne]

/-- Witness for C10: a `DROP TABLE` body is rejected with 400 and no
connection is opened. -/
theorem C10_non_select_rejected_before_connecting_witness :
    api_query (some "DROP TABLE users") (.ok ()) (.ok ())
      = { status := 400, connections := 0, executed := 0, closes := 0 } :=
  C10_non_select_rejected_before_connecting (some "DROP TABLE users") (.ok ()) (.ok ())
    (Or.inr (by decide))
